import Mathlib

/-!
Shallow embedding of the timer core of `tmetric-minimal-mcp`
(`src/utils.ts`, `src/tmetric-client.ts`).

Modelling conventions:
* Timestamps (`startTime`, `endTime`, "now") are milliseconds since the
  epoch, as `Int` — the code parses its ISO strings with `parseISO` /
  `new Date(...)` and only ever compares or subtracts the resulting
  millisecond values, so the strings are modelled by the instants they
  denote on a linear (fixed-offset) timeline.
* JavaScript `Math.floor(a / b)` on integers is `Int.fdiv`, and the JS
  remainder `a % b` is `Int.tmod` (truncated, sign of the dividend).
* JS truthiness of an optional string (`x || y`): `undefined`, `null`
  and `""` are falsy; `jsOr` below reproduces exactly that.
* `new URL(...)` is modelled by `parseUrl`, a simplified WHATWG parser
  sufficient for the shapes the client handles: it accepts
  `scheme://host[:port]/...` with a valid scheme and a non-empty host
  (lower-casing scheme and host as URL normalization does) and fails —
  as the constructor throws — on anything else, in particular on any
  string with no `://`.
-/

instance {ε α : Type} [DecidableEq ε] [DecidableEq α] : DecidableEq (Except ε α)
  | .ok a, .ok b => decidable_of_iff (a = b) (by simp)
  | .error a, .error b => decidable_of_iff (a = b) (by simp)
  | .ok _, .error _ => isFalse (fun h => Except.noConfusion h)
  | .error _, .ok _ => isFalse (fun h => Except.noConfusion h)

/-- JavaScript `a || b` for an optional string `a`: `undefined`/absent and
`""` are falsy and fall through to `b`. -/
def jsOr (a : Option String) (b : String) : String :=
  match a with
  | some s => if s = "" then b else s
  | none => b

/-! ### `src/utils.ts` -/

/-- `calculateElapsed` (utils.ts): `intervalToDuration({start, end: now})`
keeps only the `hours` and `minutes` components — hours are the elapsed
whole hours with whole days removed (`mod 24`), minutes the remainder
below an hour.  Renders `"{h}h {m}m"` when `hours > 0`, else `"{m}m"`.
`start` and `now` are the instants (ms) denoted by the ISO strings. -/
def calculateElapsed (startMs now : Int) : String :=
  let diff : Nat := (now - startMs).toNat
  let hours : Nat := diff / 3600000 % 24
  let minutes : Nat := diff % 3600000 / 60000
  if hours > 0 then s!"{hours}h {minutes}m"
  else s!"{minutes}m"

/-- `calculateDurationMinutes` (utils.ts): `Math.floor((end - start) / 60000)`. -/
def calculateDurationMinutes (startMs endMs : Int) : Int :=
  Int.fdiv (endMs - startMs) 60000

/-- `formatMinutesToGitLab` (utils.ts). -/
def formatMinutesToGitLab (minutes : Int) : String :=
  let hours : Int := Int.fdiv minutes 60
  let mins : Int := Int.tmod minutes 60
  if hours > 0 && mins > 0 then s!"{hours}h{mins}m"
  else if hours > 0 then s!"{hours}h"
  else s!"{mins}m"

/-- Is `c` legal in a URL scheme after the first character (`ALPHA / DIGIT
/ "+" / "-" / "."`)? -/
def isSchemeChar (c : Char) : Bool :=
  c.isAlphanum || c = '+' || c = '-' || c = '.'

/-- Model of the `new URL(s)` constructor, reduced to what the client
reads from it: on success, the pair (protocol including the trailing
colon, host including any port).  Requires `scheme "://" host`, a valid
scheme, a non-empty host; lower-cases both as URL normalization does.
Returns `none` where the constructor throws. -/
def parseUrl (s : String) : Option (String × String) :=
  let cs := s.toList
  let scheme := cs.takeWhile (fun c => c ≠ ':')
  match cs.drop scheme.length with
  | ':' :: '/' :: '/' :: rest =>
    match scheme with
    | [] => none
    | c0 :: ctl =>
      if c0.isAlpha && ctl.all isSchemeChar then
        let host := rest.takeWhile (fun c => c ≠ '/' && c ≠ '?' && c ≠ '#')
        if host.isEmpty then none
        else some (String.mk (scheme.map Char.toLower) ++ ":",
                   String.mk (host.map Char.toLower))
      else none
  | _ => none

/-- Substring search over the underlying character list (JS
`String.prototype.includes` / regex scanning both reduce to this). -/
def containsAux (pat : List Char) : List Char → Bool
  | [] => pat.isEmpty
  | c :: rest => pat.isPrefixOf (c :: rest) || containsAux pat rest

/-- JS `s.includes(pat)`. -/
def strContains (s pat : String) : Bool :=
  containsAux pat.toList s.toList

/-- `detectIntegrationType` (utils.ts): `"GitHub"` when the parsed URL's
host contains `github.com`, `"GitLab"` otherwise, and `"GitLab"` when the
URL constructor throws. -/
def detectIntegrationType (issueUrl : String) : String :=
  match parseUrl issueUrl with
  | some (_, host) => if strContains host "github.com" then "GitHub" else "GitLab"
  | none => "GitLab"

/-- `extractBaseUrl` (utils.ts): `"{protocol}//{host}"`, or the literal
fallback `"https://gitlab.com"` when the URL constructor throws. -/
def extractBaseUrl (issueUrl : String) : String :=
  match parseUrl issueUrl with
  | some (protocol, host) => protocol ++ "//" ++ host
  | none => "https://gitlab.com"

/-- One regex-match attempt of `issues\/(\d+)` anchored at the head of
`l`: the literal `issues/` followed by at least one digit; captures the
maximal digit run. -/
def issueAt (l : List Char) : Option String :=
  if "issues/".toList.isPrefixOf l then
    let ds := (l.drop 7).takeWhile Char.isDigit
    if ds.isEmpty then none else some (String.mk ds)
  else none

/-- Left-to-right scan for the first position where `issues\/(\d+)`
matches, as `String.prototype.match` does with an unanchored regex. -/
def issueScan : List Char → Option String
  | [] => none
  | c :: rest =>
    match issueAt (c :: rest) with
    | some r => some r
    | none => issueScan rest

/-- `extractIssueNumber` (utils.ts): `issueUrl.match(/issues\/(\d+)/)`,
returning the captured digits of the first match, or `none`. -/
def extractIssueNumber (issueUrl : String) : Option String :=
  issueScan issueUrl.toList

/-- `formatIssueId` (utils.ts). -/
def formatIssueId (issueNumber : String) (integrationType : String) : String :=
  s!"{integrationType} Issue: #{issueNumber}"

/-! ### `src/types.ts` -/

/-- `task.externalLink` in `TMetricTimeEntry` (types.ts). -/
structure ExternalLink where
  link : String
  issueId : String
deriving DecidableEq, Repr

/-- `task.integration` in `TMetricTimeEntry` (types.ts). -/
structure Integration where
  url : String
  type : String
deriving DecidableEq, Repr

/-- `task` in `TMetricTimeEntry` (types.ts): name plus optional
external-link and integration sub-objects. -/
structure TaskObj where
  name : String
  externalLink : Option ExternalLink := none
  integration : Option Integration := none
deriving DecidableEq, Repr

/-- `project` reference `{id, name}` (types.ts). -/
structure ProjectRef where
  id : Int
  name : String
deriving DecidableEq, Repr

/-- `TMetricTimeEntry` (types.ts).  `startTime`/`endTime` are the
instants (ms) denoted by the ISO strings; `endTime = none` is the
JSON `null` meaning "currently running". -/
structure TMetricTimeEntry where
  id : String
  startTime : Int
  endTime : Option Int
  project : Option ProjectRef := none
  task : Option TaskObj := none
  note : Option String := none
  tags : Option (List String) := none
deriving DecidableEq, Repr

/-- `TimerInfo` (types.ts): the read-only projection of the active entry. -/
structure TimerInfo where
  is_running : Bool
  timer_id : Option String := none
  task_name : Option String := none
  task_url : Option String := none
  project_name : Option String := none
  project_id : Option Int := none
  started_at : Option Int := none
  elapsed : Option String := none
deriving DecidableEq, Repr

/-- `ApiResponse` (types.ts): `{success, error?, message?, ...}` — the
index signature's extra keys are the optional fields the client methods
actually set. -/
structure ApiResponse where
  success : Bool
  error : Option String := none
  message : Option String := none
  current_timer : Option TimerInfo := none
  timer_id : Option String := none
  started_at : Option Int := none
  task_name : Option String := none
  time_spent : Option String := none
  time_spent_minutes : Option Int := none
  ended_at : Option Int := none
  deleted : Option String := none
  entry_type : Option String := none
  stopped_ago : Option String := none
  projects : Option (List ProjectRef) := none
deriving DecidableEq, Repr

/-! ### `src/tmetric-client.ts`

Each method is a function of the client's cached `accountId` and an
environment fixing what the remote service would answer on each endpoint
and the current instant.  Mutating HTTP calls (`POST`, `PUT`, `DELETE`)
are recorded in a trace so that "issues no creation/update/delete call"
is a statement about the trace; `GET`s are pure reads and untraced.
A thrown JS error is `Except.error` carrying the message; a method whose
`try/catch` returns a structured response is total into `ApiResponse`. -/

/-- Body of the `POST /timeentries` creation call built by `startTimer`. -/
structure EntryData where
  startTime : Option Int
  endTime : Option Int
  projectId : Int
  task : TaskObj
  tags : List String
deriving DecidableEq, Repr

/-- Body of the `PUT /timeentries/{id}` update built by `stopTimer`:
only `startTime`, `endTime`, `project.id`, `tags`, and `task` or `note`. -/
structure UpdatePayload where
  startTime : Int
  endTime : Int
  projectId : Option Int
  tags : List String
  task : Option TaskObj := none
  note : Option String := none
deriving DecidableEq, Repr

/-- A mutating remote call issued by a client method. -/
inductive RemoteCall where
  | post (data : EntryData)
  | put (id : String) (data : UpdatePayload)
  | delete (id : String)
deriving DecidableEq, Repr

/-- The remote service's responses and the current instant, fixed for
one method invocation.  `Except.error e` means the HTTP call fails with
a JS error whose `.message` is `e`. -/
structure Env where
  userResp : Except String String
  entriesResp : Except String (List TMetricTimeEntry)
  projectsResp : Except String (List ProjectRef)
  postResp : Except String TMetricTimeEntry
  putResp : Except String Unit
  deleteResp : Except String Unit
  now : Int

/-- `ensureInitialized`/`initialize`: reuse the cached `accountId`, or
fetch `/user` and fail with the wrapped initialization message. -/
def ensureInitialized (acc : Option String) (env : Env) : Except String String :=
  match acc with
  | some a => .ok a
  | none =>
    match env.userResp with
    | .ok a => .ok a
    | .error e => .error ("Failed to initialize TMetric client: " ++ e)

/-- `getActiveTimeEntry`: today's entries, first one with `endTime === null`. -/
def getActiveTimeEntry (acc : Option String) (env : Env) :
    Except String (Option TMetricTimeEntry) :=
  match ensureInitialized acc env with
  | .error e => .error e
  | .ok _ =>
    match env.entriesResp with
    | .error e => .error e
    | .ok entries => .ok (entries.find? fun entry => entry.endTime.isNone)

/-- The comparator `(a, b) => new Date(b.startTime).getTime() - new
Date(a.startTime).getTime()` places `a` before `b` exactly when it is
not earlier — `startTime` descending, ties keeping their input order
(ECMAScript `Array.prototype.sort` is stable). -/
def laterFirst (a b : TMetricTimeEntry) : Prop :=
  b.startTime ≤ a.startTime

instance : DecidableRel laterFirst :=
  fun a b => inferInstanceAs (Decidable (b.startTime ≤ a.startTime))

instance : IsTotal TMetricTimeEntry laterFirst :=
  ⟨fun a b => le_total b.startTime a.startTime⟩

instance : IsTrans TMetricTimeEntry laterFirst :=
  ⟨fun _ _ _ hab hbc => le_trans hbc hab⟩

/-- `getLastTimeEntry`: today's entries sorted by `startTime` descending
(a stable comparison sort, modelled by a stable insertion sort), most
recent first; `none` on an empty day. -/
def getLastTimeEntry (acc : Option String) (env : Env) :
    Except String (Option TMetricTimeEntry) :=
  match ensureInitialized acc env with
  | .error e => .error e
  | .ok _ =>
    match env.entriesResp with
    | .error e => .error e
    | .ok entries =>
      if entries.isEmpty then .ok none
      else .ok (List.insertionSort laterFirst entries).head?

/-- The `TimerInfo` projection `getCurrentTimer` builds from the active
entry (JS `||` fallbacks via `jsOr`). -/
def timerInfoOf (entry : TMetricTimeEntry) (now : Int) : TimerInfo :=
  { is_running := true
    timer_id := some entry.id
    task_name := some (jsOr (entry.task.map (·.name)) (jsOr entry.note "No description"))
    task_url := (entry.task.bind (·.externalLink)).map (·.link)
    project_name := some (jsOr (entry.project.map (·.name)) "No project")
    project_id := entry.project.map (·.id)
    started_at := some entry.startTime
    elapsed := some (calculateElapsed entry.startTime now) }

/-- `getCurrentTimer`: projection of the active entry; rethrows any
failure with the `Failed to get current timer:` prefix (the one method
that surfaces errors by throwing). -/
def getCurrentTimer (acc : Option String) (env : Env) : Except String TimerInfo :=
  match getActiveTimeEntry acc env with
  | .error e => .error ("Failed to get current timer: " ++ e)
  | .ok none => .ok { is_running := false }
  | .ok (some entry) => .ok (timerInfoOf entry env.now)

/-- `listProjects`: structured result, any failure caught as `API_ERROR`. -/
def listProjects (acc : Option String) (env : Env) : ApiResponse :=
  match ensureInitialized acc env with
  | .error e =>
    { success := false, error := some "API_ERROR"
      message := some ("Failed to list projects: " ++ e) }
  | .ok _ =>
    match env.projectsResp with
    | .error e =>
      { success := false, error := some "API_ERROR"
        message := some ("Failed to list projects: " ++ e) }
    | .ok ps =>
      { success := true
        projects := some (ps.map fun p => { id := p.id, name := p.name }) }

/-- The task object `startTimer` builds: `{name}` always; `externalLink`
and `integration` only when a URL was supplied (JS-truthy) and
`extractIssueNumber` finds an issue number. -/
def buildTask (taskName : String) (taskUrl : Option String) : TaskObj :=
  match taskUrl with
  | none => { name := taskName }
  | some url =>
    if url = "" then { name := taskName }
    else
      match extractIssueNumber url with
      | none => { name := taskName }
      | some issueNumber =>
        let integrationType := detectIntegrationType url
        { name := taskName
          externalLink := some { link := url, issueId := formatIssueId issueNumber integrationType }
          integration := some { url := extractBaseUrl url, type := integrationType } }

/-- `startTimer(projectId, taskName, taskUrl?)`: refuses when a timer is
already running, otherwise `POST`s a new entry with both times `null`.
Any thrown failure is caught as a structured `API_ERROR`. -/
def startTimer (acc : Option String) (projectId : Int) (taskName : String)
    (taskUrl : Option String) (env : Env) : ApiResponse × List RemoteCall :=
  match ensureInitialized acc env with
  | .error e =>
    ({ success := false, error := some "API_ERROR"
       message := some ("Failed to start timer: " ++ e) }, [])
  | .ok _ =>
    match getCurrentTimer acc env with
    | .error e =>
      ({ success := false, error := some "API_ERROR"
         message := some ("Failed to start timer: " ++ e) }, [])
    | .ok current =>
      if current.is_running then
        ({ success := false, error := some "TIMER_ALREADY_RUNNING"
           message := some "Cannot start new timer. A timer is already running."
           current_timer := some current }, [])
      else
        let entryData : EntryData :=
          { startTime := none, endTime := none, projectId := projectId
            task := buildTask taskName taskUrl, tags := [] }
        match env.postResp with
        | .error e =>
          ({ success := false, error := some "API_ERROR"
             message := some ("Failed to start timer: " ++ e) }, [.post entryData])
        | .ok created =>
          ({ success := true, timer_id := some created.id
             started_at := some created.startTime, task_name := some taskName },
           [.post entryData])

/-- The minimal `PUT` body `stopTimer` builds from the active entry:
carried-over `startTime`, fresh `endTime`, `project.id`, `tags`, and
`task` (name + carried-over sub-objects, when JS-truthy) else `note`. -/
def buildUpdate (entry : TMetricTimeEntry) (endTime : Int) : UpdatePayload :=
  let base : UpdatePayload :=
    { startTime := entry.startTime, endTime := endTime
      projectId := entry.project.map (·.id)
      tags := entry.tags.getD [] }
  match entry.task with
  | some t =>
    if t.name = "" then
      match entry.note with
      | some n => if n = "" then base else { base with note := some n }
      | none => base
    else
      { base with task := some { name := t.name, externalLink := t.externalLink
                                 integration := t.integration } }
  | none =>
    match entry.note with
    | some n => if n = "" then base else { base with note := some n }
    | none => base

/-- `stopTimer()`: requires an active entry; `PUT`s it back with
`endTime` set to now and reports the GitLab-formatted duration.
`endTime` is the instant "now" (the code renders it as a local-time ISO
string which `calculateDurationMinutes` parses back to that instant). -/
def stopTimer (acc : Option String) (env : Env) : ApiResponse × List RemoteCall :=
  match ensureInitialized acc env with
  | .error e =>
    ({ success := false, error := some "API_ERROR"
       message := some ("Failed to stop timer: " ++ e) }, [])
  | .ok _ =>
    match getActiveTimeEntry acc env with
    | .error e =>
      ({ success := false, error := some "API_ERROR"
         message := some ("Failed to stop timer: " ++ e) }, [])
    | .ok none =>
      ({ success := false, error := some "NO_TIMER_RUNNING"
         message := some "No active timer to stop" }, [])
    | .ok (some activeEntry) =>
      let endTime := env.now
      let updateData := buildUpdate activeEntry endTime
      match env.putResp with
      | .error e =>
        ({ success := false, error := some "API_ERROR"
           message := some ("Failed to stop timer: " ++ e) },
         [.put activeEntry.id updateData])
      | .ok _ =>
        let durationMinutes := calculateDurationMinutes activeEntry.startTime endTime
        ({ success := true
           time_spent := some (formatMinutesToGitLab durationMinutes)
           time_spent_minutes := some durationMinutes
           started_at := some activeEntry.startTime
           ended_at := some endTime
           task_name := some (jsOr (activeEntry.task.map (·.name)) "Unknown task") },
         [.put activeEntry.id updateData])

/-- `deleteTimeEntry`'s `mode` argument. -/
inductive DeleteMode where
  | current
  | last
deriving DecidableEq, Repr

/-- Shared tail of `deleteTimeEntry`: issue the `DELETE` and build the
success response (or catch the remote failure as `API_ERROR`). -/
def performDelete (targetId : String) (entryType : String)
    (stoppedAgo : Option String) (env : Env) : ApiResponse × List RemoteCall :=
  match env.deleteResp with
  | .error e =>
    ({ success := false, error := some "API_ERROR"
       message := some ("Failed to delete entry: " ++ e) }, [.delete targetId])
  | .ok _ =>
    ({ success := true, deleted := some targetId
       entry_type := some entryType, stopped_ago := stoppedAgo },
     [.delete targetId])

/-- `deleteTimeEntry(mode)`: `"current"` deletes the active timer;
`"last"` deletes today's most recent entry guarded by the 5-minute rule. -/
def deleteTimeEntry (acc : Option String) (mode : DeleteMode) (env : Env) :
    ApiResponse × List RemoteCall :=
  match ensureInitialized acc env with
  | .error e =>
    ({ success := false, error := some "API_ERROR"
       message := some ("Failed to delete entry: " ++ e) }, [])
  | .ok _ =>
    match mode with
    | .current =>
      match getCurrentTimer acc env with
      | .error e =>
        ({ success := false, error := some "API_ERROR"
           message := some ("Failed to delete entry: " ++ e) }, [])
      | .ok current =>
        if current.is_running then
          performDelete (current.timer_id.getD "") "active" none env
        else
          ({ success := false, error := some "NO_TIMER_RUNNING"
             message := some "No active timer to delete" }, [])
    | .last =>
      match getLastTimeEntry acc env with
      | .error e =>
        ({ success := false, error := some "API_ERROR"
           message := some ("Failed to delete entry: " ++ e) }, [])
      | .ok none =>
        ({ success := false, error := some "NO_ENTRIES_FOUND"
           message := some "No time entries found for today" }, [])
      | .ok (some lastEntry) =>
        match lastEntry.endTime with
        | some endT =>
          let minutesAgo := Int.fdiv (env.now - endT) 60000
          if minutesAgo > 5 then
            ({ success := false, error := some "ENTRY_TOO_OLD"
               message := some ("Last entry stopped " ++ toString minutesAgo ++
                 " minutes ago. Use TMetric web UI to delete specific entries.") }, [])
          else
            performDelete lastEntry.id "stopped" (some (toString minutesAgo ++ "m")) env
        | none =>
          performDelete lastEntry.id "active" none env

/-! ### Concrete fixtures used by witnesses and counterexamples -/

/-- An entry that is running (`endTime` null) and carries only a `note`. -/
def entryNoteOnly : TMetricTimeEntry :=
  { id := "e1", startTime := 0, endTime := none, note := some "Writing docs" }

/-- A running entry with a full task object. -/
def entryWithTask : TMetricTimeEntry :=
  { id := "e2", startTime := 0, endTime := none
    project := some { id := 7, name := "Proj" }
    task := some { name := "Fix bug"
                   externalLink := some { link := "https://gitlab.com/g/p/-/issues/9"
                                          issueId := "GitLab Issue: #9" } } }

/-- A stopped entry (mutable fields chosen per use via record update). -/
def entryStopped : TMetricTimeEntry :=
  { id := "e3", startTime := 0, endTime := some 600000 }

/-- An environment where every remote call succeeds, today's entries are
`entries`, and the clock reads `now`. -/
def mkEnv (entries : List TMetricTimeEntry) (now : Int) : Env :=
  { userResp := .ok "acct"
    entriesResp := .ok entries
    projectsResp := .ok [{ id := 7, name := "Proj" }]
    postResp := .ok { id := "new", startTime := 100, endTime := none }
    putResp := .ok ()
    deleteResp := .ok ()
    now := now }

/-- Three stopped entries with distinct `startTime`s, deliberately not in
chronological order; `"late"` has the latest start. -/
def entriesScrambled : List TMetricTimeEntry :=
  [entryStopped,
   { entryStopped with id := "late", startTime := 500000 },
   { entryStopped with id := "mid", startTime := 200000 }]

/-- An environment where both account-scoped reads fail with message `boom`. -/
def envReadFails : Env :=
  { mkEnv [] 0 with entriesResp := .error "boom", projectsResp := .error "boom" }

/-- Modelled from the spec: claim C6's reading of the elapsed rendering,
with `H` the TOTAL elapsed whole hours (days not split off) and `M` the
remaining minutes — for refinement comparison against `calculateElapsed`. -/
def specElapsedTotalHours (diff : Nat) : String :=
  let H := diff / 3600000
  let M := diff % 3600000 / 60000
  if H > 0 then s!"{H}h {M}m" else s!"{M}m"

/-! ### Theorems -/

/-- If some entry of the day is running, `find?` locates one. -/
theorem find_active_of_exists {entries : List TMetricTimeEntry}
    (h : ∃ e ∈ entries, e.endTime = none) :
    ∃ e0, entries.find? (fun entry => entry.endTime.isNone) = some e0 := by
  have h' : (entries.find? (fun entry => entry.endTime.isNone)).isSome := by
    obtain ⟨e, he, hnone⟩ := h
    exact List.find?_isSome.mpr ⟨e, he, by simp [hnone]⟩
  exact Option.isSome_iff_exists.mp h'

/-- C1: if the state observed from the remote service immediately before
creation is RUNNING (some entry today has `endTime == null`), `start`
fails with `TIMER_ALREADY_RUNNING`, returns the conflicting timer's
projection in `current_timer`, and the mutating-call trace is empty (no
entry-creation `POST` is issued), preserving the at-most-one-active-entry
invariant. -/
theorem start_running_fails_no_create (acc : String) (env : Env)
    (entries : List TMetricTimeEntry) (projectId : Int) (taskName : String)
    (taskUrl : Option String)
    (hE : env.entriesResp = .ok entries)
    (hRun : ∃ e ∈ entries, e.endTime = none) :
    ∃ conflict : TimerInfo,
      getCurrentTimer (some acc) env = .ok conflict ∧
      conflict.is_running = true ∧
      startTimer (some acc) projectId taskName taskUrl env =
        ({ success := false, error := some "TIMER_ALREADY_RUNNING"
           message := some "Cannot start new timer. A timer is already running."
           current_timer := some conflict }, []) := by
  obtain ⟨e0, hfind⟩ := find_active_of_exists hRun
  refine ⟨timerInfoOf e0 env.now, ?_, rfl, ?_⟩ <;>
    simp [getCurrentTimer, getActiveTimeEntry, ensureInitialized, hE, hfind,
      startTimer, timerInfoOf]

/-- C1 witness: a concrete RUNNING day on which `start` refuses. -/
theorem start_running_fails_no_create_witness :
    (mkEnv [entryNoteOnly] 60000).entriesResp = .ok [entryNoteOnly] ∧
    (∃ e ∈ [entryNoteOnly], e.endTime = none) ∧
    ∃ conflict : TimerInfo,
      getCurrentTimer (some "acct") (mkEnv [entryNoteOnly] 60000) = .ok conflict ∧
      conflict.is_running = true ∧
      startTimer (some "acct") 7 "task" none (mkEnv [entryNoteOnly] 60000) =
        ({ success := false, error := some "TIMER_ALREADY_RUNNING"
           message := some "Cannot start new timer. A timer is already running."
           current_timer := some conflict }, []) :=
  ⟨rfl, ⟨entryNoteOnly, by decide, rfl⟩,
    start_running_fails_no_create "acct" (mkEnv [entryNoteOnly] 60000)
      [entryNoteOnly] 7 "task" none rfl ⟨entryNoteOnly, by decide, rfl⟩⟩

/-- C3: `stop()` in the IDLE state (no entry of the day has
`endTime == null`) fails with `NO_TIMER_RUNNING` and the mutating-call
trace is empty — no `PUT` update is issued, so remote entries are
untouched. -/
theorem stop_idle_fails_no_update (acc : String) (env : Env)
    (entries : List TMetricTimeEntry)
    (hE : env.entriesResp = .ok entries)
    (hIdle : ∀ e ∈ entries, e.endTime ≠ none) :
    stopTimer (some acc) env =
      ({ success := false, error := some "NO_TIMER_RUNNING"
         message := some "No active timer to stop" }, []) := by
  have hfind : entries.find? (fun entry => entry.endTime.isNone) = none := by
    rw [List.find?_eq_none]
    intro e he
    simp [Option.isNone_iff_eq_none, hIdle e he]
  simp [stopTimer, getActiveTimeEntry, ensureInitialized, hE, hfind]

/-- C3 witness: a concrete IDLE day on which `stop` refuses. -/
theorem stop_idle_fails_no_update_witness :
    (mkEnv [entryStopped] 900000).entriesResp = .ok [entryStopped] ∧
    (∀ e ∈ [entryStopped], e.endTime ≠ none) ∧
    stopTimer (some "acct") (mkEnv [entryStopped] 900000) =
      ({ success := false, error := some "NO_TIMER_RUNNING"
         message := some "No active timer to stop" }, []) :=
  ⟨rfl, by decide,
    stop_idle_fails_no_update "acct" (mkEnv [entryStopped] 900000)
      [entryStopped] rfl (by decide)⟩

/-- The head of the descending sort is an element of the list whose
`startTime` dominates every element. -/
theorem head_sort_latest (l : List TMetricTimeEntry) (hne : l ≠ []) :
    ∃ sel, (List.insertionSort laterFirst l).head? = some sel ∧ sel ∈ l ∧
      ∀ e ∈ l, e.startTime ≤ sel.startTime := by
  have hperm := List.perm_insertionSort laterFirst l
  have hsorted := List.sorted_insertionSort laterFirst l
  cases hs : List.insertionSort laterFirst l with
  | nil =>
    rw [hs] at hperm
    exact absurd hperm.symm.eq_nil hne
  | cons x xs =>
    refine ⟨x, rfl, ?_, ?_⟩
    · exact hperm.mem_iff.mp (hs ▸ List.mem_cons_self x xs)
    · intro e he
      have he' : e ∈ x :: xs := hs ▸ hperm.mem_iff.mpr he
      rcases List.mem_cons.mp he' with rfl | htl
      · exact le_refl _
      · have hp := hs ▸ hsorted
        rw [List.Sorted, List.pairwise_cons] at hp
        exact hp.1 e htl

/-- C4: `delete("last")` on a non-empty day targets the entry with the
latest `startTime` — whatever order the service returned the list in,
every `DELETE` call it can issue names that entry's id — and on an empty
day it fails with `NO_ENTRIES_FOUND` issuing no mutating call at all. -/
theorem delete_last_targets_latest (acc : String) (env : Env)
    (entries : List TMetricTimeEntry)
    (hE : env.entriesResp = .ok entries) :
    (entries = [] →
      deleteTimeEntry (some acc) .last env =
        ({ success := false, error := some "NO_ENTRIES_FOUND"
           message := some "No time entries found for today" }, [])) ∧
    (entries ≠ [] →
      ∃ sel, getLastTimeEntry (some acc) env = .ok (some sel) ∧ sel ∈ entries ∧
        (∀ e ∈ entries, e.startTime ≤ sel.startTime) ∧
        ∀ c ∈ (deleteTimeEntry (some acc) DeleteMode.last env).2,
          c = RemoteCall.delete sel.id) := by
  constructor
  · rintro rfl
    simp [deleteTimeEntry, getLastTimeEntry, ensureInitialized, hE]
  · intro hne
    obtain ⟨sel, hhead, hmem, hmax⟩ := head_sort_latest entries hne
    have hlast : getLastTimeEntry (some acc) env = .ok (some sel) := by
      simp [getLastTimeEntry, ensureInitialized, hE, List.isEmpty_iff, hne, hhead]
    refine ⟨sel, hlast, hmem, hmax, ?_⟩
    intro c hc
    simp only [deleteTimeEntry, ensureInitialized, hlast] at hc
    rcases hend : sel.endTime with _ | endT <;>
      simp only [hend, performDelete] at hc <;>
      [skip; split at hc] <;>
      revert hc <;>
      rcases env.deleteResp with _ | _ <;>
      simp_all

/-- C4 witness: three distinct-start entries in scrambled order; the
middle-listed one has the latest start and is the one targeted. -/
theorem delete_last_targets_latest_witness :
    ((mkEnv entriesScrambled 600500).entriesResp = .ok entriesScrambled) ∧
    (entriesScrambled ≠ []) ∧
    ∃ sel, getLastTimeEntry (some "acct") (mkEnv entriesScrambled 600500) = .ok (some sel) ∧
      sel ∈ entriesScrambled ∧
      (∀ e ∈ entriesScrambled, e.startTime ≤ sel.startTime) ∧
      ∀ c ∈ (deleteTimeEntry (some "acct") DeleteMode.last (mkEnv entriesScrambled 600500)).2,
        c = RemoteCall.delete sel.id := by
  refine ⟨rfl, by decide, ?_⟩
  exact (delete_last_targets_latest "acct" (mkEnv entriesScrambled 600500)
    entriesScrambled rfl).2 (by decide)

/-- C2: `delete("last")` with target `le` and `minutesAgo = floor((now −
endTime)/60000)`: if `minutesAgo > 5` it fails with `ENTRY_TOO_OLD`, the
message stating the exact minute count, and issues no `DELETE`; if
`minutesAgo ≤ 5` (the boundary included) the deletion proceeds with
`entry_type = "stopped"` and `stopped_ago = "{minutesAgo}m"`; if
`endTime` is unset it proceeds with `entry_type = "active"` and no
`stopped_ago`. -/
theorem delete_last_five_minute_rule (acc : String) (env : Env)
    (le : TMetricTimeEntry)
    (hLast : getLastTimeEntry (some acc) env = .ok (some le))
    (hDel : env.deleteResp = .ok ()) :
    (∀ endT, le.endTime = some endT →
      (Int.fdiv (env.now - endT) 60000 > 5 →
        deleteTimeEntry (some acc) .last env =
          ({ success := false, error := some "ENTRY_TOO_OLD"
             message := some ("Last entry stopped " ++
               toString (Int.fdiv (env.now - endT) 60000) ++
               " minutes ago. Use TMetric web UI to delete specific entries.") }, [])) ∧
      (Int.fdiv (env.now - endT) 60000 ≤ 5 →
        deleteTimeEntry (some acc) .last env =
          ({ success := true, deleted := some le.id
             entry_type := some "stopped"
             stopped_ago := some (toString (Int.fdiv (env.now - endT) 60000) ++ "m") },
           [.delete le.id]))) ∧
    (le.endTime = none →
      deleteTimeEntry (some acc) .last env =
        ({ success := true, deleted := some le.id
           entry_type := some "active", stopped_ago := none },
         [.delete le.id])) := by
  refine ⟨fun endT hend => ⟨fun hold => ?_, fun hok => ?_⟩, fun hend => ?_⟩ <;>
    simp_all [deleteTimeEntry, ensureInitialized, performDelete, hLast]

/-- C2 witness: an entry stopped exactly 5 minutes ago is deleted with
`stopped_ago = "5m"`; its 6-minutes-ago variant is refused with the
minute count in the message. -/
theorem delete_last_five_minute_rule_witness :
    (getLastTimeEntry (some "acct") (mkEnv [entryStopped] 900000) =
        .ok (some entryStopped)) ∧
    ((mkEnv [entryStopped] 900000).deleteResp = .ok ()) ∧
    entryStopped.endTime = some 600000 ∧
    Int.fdiv ((mkEnv [entryStopped] 900000).now - 600000) 60000 = 5 ∧
    deleteTimeEntry (some "acct") .last (mkEnv [entryStopped] 900000) =
      ({ success := true, deleted := some "e3"
         entry_type := some "stopped", stopped_ago := some "5m" }, [.delete "e3"]) ∧
    deleteTimeEntry (some "acct") .last (mkEnv [entryStopped] 960000) =
      ({ success := false, error := some "ENTRY_TOO_OLD"
         message := some "Last entry stopped 6 minutes ago. Use TMetric web UI to delete specific entries." },
       []) := by
  refine ⟨rfl, rfl, rfl, by decide, ?_, ?_⟩
  · have h := ((delete_last_five_minute_rule "acct" (mkEnv [entryStopped] 900000)
      entryStopped rfl rfl).1 600000 rfl).2 (by decide)
    simpa using h
  · have h := ((delete_last_five_minute_rule "acct" (mkEnv [entryStopped] 960000)
      entryStopped rfl rfl).1 600000 rfl).1 (by decide)
    simpa using h

/-- C5 counterexample: a running entry with no `task` and note
`"Writing docs"`.  `getCurrentTimer` projects `task_name = "Writing
docs"` as claimed, but a successful `stop()` reports `task_name =
"Unknown task"`, not the note — the claimed note fallback does not hold
for `stop()`'s result. -/
theorem stop_task_name_skips_note_cex :
    entryNoteOnly.task = none ∧
    entryNoteOnly.note = some "Writing docs" ∧
    (getCurrentTimer (some "acct") (mkEnv [entryNoteOnly] 60000)).map (·.task_name) =
      .ok (some "Writing docs") ∧
    (stopTimer (some "acct") (mkEnv [entryNoteOnly] 60000)).1.success = true ∧
    (stopTimer (some "acct") (mkEnv [entryNoteOnly] 60000)).1.task_name =
      some "Unknown task" ∧
    (stopTimer (some "acct") (mkEnv [entryNoteOnly] 60000)).1.task_name ≠
      some "Writing docs" := by
  decide

/-- C5 as amended: for the running entry, `getCurrentTimer`'s projection
follows the full fallback chain `task.name` → `note` → `"No
description"`, while a successful `stop()`'s `task_name` is `task.name`
when a (JS-truthy) task name is present and otherwise the literal
`"Unknown task"`, with no `note` fallback. -/
theorem task_name_fallback_chain (acc : String) (env : Env)
    (entry : TMetricTimeEntry)
    (hE : env.entriesResp = .ok [entry]) (hRun : entry.endTime = none)
    (hPut : env.putResp = .ok ()) :
    (∀ t, entry.task = some t → t.name ≠ "" →
      (getCurrentTimer (some acc) env).map (·.task_name) = .ok (some t.name) ∧
      (stopTimer (some acc) env).1.task_name = some t.name) ∧
    (entry.task = none → ∀ n, entry.note = some n → n ≠ "" →
      (getCurrentTimer (some acc) env).map (·.task_name) = .ok (some n) ∧
      (stopTimer (some acc) env).1.task_name = some "Unknown task") ∧
    (entry.task = none → entry.note = none →
      (getCurrentTimer (some acc) env).map (·.task_name) = .ok (some "No description") ∧
      (stopTimer (some acc) env).1.task_name = some "Unknown task") := by
  refine ⟨fun t ht hname => ?_, fun ht n hn hne => ?_, fun ht hn => ?_⟩ <;>
    simp_all [getCurrentTimer, getActiveTimeEntry, ensureInitialized, stopTimer,
      timerInfoOf, jsOr, Except.map]

/-- C5 witness: the note-only entry exercises the amended fallback. -/
theorem task_name_fallback_chain_witness :
    (mkEnv [entryNoteOnly] 60000).entriesResp = .ok [entryNoteOnly] ∧
    entryNoteOnly.endTime = none ∧
    (mkEnv [entryNoteOnly] 60000).putResp = .ok () ∧
    entryNoteOnly.task = none ∧ entryNoteOnly.note = some "Writing docs" ∧
    (getCurrentTimer (some "acct") (mkEnv [entryNoteOnly] 60000)).map (·.task_name) =
      .ok (some "Writing docs") ∧
    (stopTimer (some "acct") (mkEnv [entryNoteOnly] 60000)).1.task_name =
      some "Unknown task" := by
  refine ⟨rfl, rfl, rfl, rfl, rfl, ?_, ?_⟩ <;>
    have h := (task_name_fallback_chain "acct" (mkEnv [entryNoteOnly] 60000)
      entryNoteOnly rfl rfl rfl).2.1 rfl "Writing docs" rfl (by decide)
  · exact h.1
  · exact h.2

/-- C6 counterexample: a timer that has run for exactly 24 hours.  The
claim's reading (`H` = TOTAL elapsed whole hours) would render
`"24h 0m"`, but the code's duration decomposition drops whole days, so
`getCurrentTimer` reports `elapsed = "0m"`. -/
theorem elapsed_total_hours_cex :
    calculateElapsed 0 86400000 = "0m" ∧
    specElapsedTotalHours 86400000 = "24h 0m" ∧
    calculateElapsed 0 86400000 ≠ specElapsedTotalHours 86400000 ∧
    entryNoteOnly.startTime = 0 ∧
    (getCurrentTimer (some "acct") (mkEnv [entryNoteOnly] 86400000)).map (·.elapsed) =
      .ok (some "0m") := by
  decide

/-- C6 as amended: for a running entry, `elapsed` is `"{H}h {M}m"` when
`H > 0` and `"{M}m"` otherwise, where `H` is the elapsed whole hours
with whole days removed (`mod 24`) and `M` the remaining minutes below
the hour, with no zero suppression (`"0m"`, `"2h 0m"`, `"2h 30m"`). -/
theorem elapsed_formatting (acc : String) (env : Env) (entry : TMetricTimeEntry)
    (hE : env.entriesResp = .ok [entry]) (hRun : entry.endTime = none) :
    (getCurrentTimer (some acc) env).map (·.elapsed) =
      .ok (some (
        let diff : Nat := (env.now - entry.startTime).toNat
        let H : Nat := diff / 3600000 % 24
        let M : Nat := diff % 3600000 / 60000
        if H > 0 then s!"{H}h {M}m" else s!"{M}m")) ∧
    calculateElapsed 0 0 = "0m" ∧
    calculateElapsed 0 900000 = "15m" ∧
    calculateElapsed 0 7200000 = "2h 0m" ∧
    calculateElapsed 0 9000000 = "2h 30m" := by
  refine ⟨?_, by decide, by decide, by decide, by decide⟩
  simp [getCurrentTimer, getActiveTimeEntry, ensureInitialized, hE, hRun,
    timerInfoOf, Except.map, calculateElapsed]

/-- C6 witness: 150 minutes elapsed renders `"2h 30m"`. -/
theorem elapsed_formatting_witness :
    (mkEnv [entryNoteOnly] 9000000).entriesResp = .ok [entryNoteOnly] ∧
    entryNoteOnly.endTime = none ∧
    (getCurrentTimer (some "acct") (mkEnv [entryNoteOnly] 9000000)).map (·.elapsed) =
      .ok (some "2h 30m") := by
  refine ⟨rfl, rfl, ?_⟩
  have h := (elapsed_formatting "acct" (mkEnv [entryNoteOnly] 9000000)
    entryNoteOnly rfl rfl).1
  simpa using h

/-- C7: a successful `stop()` reports `time_spent_minutes =
floor((now − startTime)/60000)` and `time_spent` rendered as
`"{H}h{M}m"` when both `H = floor(m/60)` and `M = m % 60` are nonzero,
`"{H}h"` when only hours, `"{M}m"` otherwise — with the claimed
boundary values `0 → "0m"`, `59 → "59m"`, `60 → "1h"`, `90 → "1h30m"`,
`1441 → "24h1m"`. -/
theorem stop_duration_formatting (acc : String) (env : Env)
    (entry : TMetricTimeEntry)
    (hE : env.entriesResp = .ok [entry]) (hRun : entry.endTime = none)
    (hPut : env.putResp = .ok ()) :
    (stopTimer (some acc) env).1.success = true ∧
    (stopTimer (some acc) env).1.time_spent_minutes =
      some (Int.fdiv (env.now - entry.startTime) 60000) ∧
    (stopTimer (some acc) env).1.time_spent =
      some (
        let m : Int := Int.fdiv (env.now - entry.startTime) 60000
        let hours : Int := Int.fdiv m 60
        let mins : Int := Int.tmod m 60
        if hours > 0 && mins > 0 then s!"{hours}h{mins}m"
        else if hours > 0 then s!"{hours}h"
        else s!"{mins}m") ∧
    formatMinutesToGitLab 0 = "0m" ∧ formatMinutesToGitLab 59 = "59m" ∧
    formatMinutesToGitLab 60 = "1h" ∧ formatMinutesToGitLab 90 = "1h30m" ∧
    formatMinutesToGitLab 1441 = "24h1m" := by
  refine ⟨?_, ?_, ?_, by decide, by decide, by decide, by decide, by decide⟩ <;>
    simp [stopTimer, getActiveTimeEntry, ensureInitialized, hE, hRun, hPut,
      calculateDurationMinutes, formatMinutesToGitLab]

/-- C7 witness: stopping after 90 minutes yields `90` and `"1h30m"`. -/
theorem stop_duration_formatting_witness :
    (mkEnv [entryNoteOnly] 5400000).entriesResp = .ok [entryNoteOnly] ∧
    entryNoteOnly.endTime = none ∧
    (mkEnv [entryNoteOnly] 5400000).putResp = .ok () ∧
    (stopTimer (some "acct") (mkEnv [entryNoteOnly] 5400000)).1.success = true ∧
    (stopTimer (some "acct") (mkEnv [entryNoteOnly] 5400000)).1.time_spent_minutes =
      some 90 ∧
    (stopTimer (some "acct") (mkEnv [entryNoteOnly] 5400000)).1.time_spent =
      some "1h30m" := by
  have h := stop_duration_formatting "acct" (mkEnv [entryNoteOnly] 5400000)
    entryNoteOnly rfl rfl rfl
  exact ⟨rfl, rfl, rfl, h.1, by rw [h.2.1]; decide, by rw [h.2.2.1]; decide⟩

/-- C8: `start()` in IDLE with a `taskUrl` issues exactly one creation
`POST` whose task carries `externalLink = {link: url, issueId:
formatIssueId(n, type)}` and `integration = {url: extractBaseUrl(url),
type: detectIntegrationType(url)}` if and only if `extractIssueNumber`
finds a digit sequence after `issues/`; otherwise the task carries only
its name.  The stated round-trips for the GitLab and GitHub example
URLs hold. -/
theorem start_issue_link_roundtrip (acc : String) (env : Env)
    (entries : List TMetricTimeEntry) (projectId : Int) (taskName url : String)
    (hE : env.entriesResp = .ok entries)
    (hIdle : entries.find? (fun e => e.endTime.isNone) = none) :
    (∃ t : TaskObj,
      (startTimer (some acc) projectId taskName (some url) env).2 =
        [RemoteCall.post { startTime := none, endTime := none
                           projectId := projectId, task := t, tags := [] }] ∧
      t.name = taskName ∧
      (∀ n, extractIssueNumber url = some n →
        t.externalLink = some { link := url
                                issueId := formatIssueId n (detectIntegrationType url) } ∧
        t.integration = some { url := extractBaseUrl url
                               type := detectIntegrationType url }) ∧
      (extractIssueNumber url = none →
        t.externalLink = none ∧ t.integration = none)) ∧
    extractIssueNumber "https://gitlab.example.com/g/p/-/issues/42" = some "42" ∧
    extractBaseUrl "https://gitlab.example.com/g/p/-/issues/42" =
      "https://gitlab.example.com" ∧
    detectIntegrationType "https://gitlab.example.com/g/p/-/issues/42" = "GitLab" ∧
    formatIssueId "42" "GitLab" = "GitLab Issue: #42" ∧
    extractIssueNumber "https://github.com/u/r/issues/7" = some "7" ∧
    detectIntegrationType "https://github.com/u/r/issues/7" = "GitHub" ∧
    formatIssueId "7" "GitHub" = "GitHub Issue: #7" := by
  refine ⟨⟨buildTask taskName (some url), ?_, ?_, ?_, ?_⟩,
    by decide, by decide, by decide, by decide, by decide, by decide, by decide⟩
  · have hcur : getCurrentTimer (some acc) env = .ok { is_running := false } := by
      simp [getCurrentTimer, getActiveTimeEntry, ensureInitialized, hE, hIdle]
    rcases hpost : env.postResp with _ | _ <;>
      simp [startTimer, ensureInitialized, hcur, hpost]
  · by_cases hne : url = "" <;>
      rcases hcase : extractIssueNumber url with _ | n <;>
      simp [buildTask, hne, hcase]
  · intro n hn
    have hne : url ≠ "" := by
      intro h
      rw [h] at hn
      exact Option.noConfusion hn
    simp [buildTask, hne, hn]
  · intro hn
    by_cases hne : url = ""
    · simp [buildTask, hne]
    · simp [buildTask, hne, hn]

/-- C8 witness: the GitLab example URL on an empty (IDLE) day. -/
theorem start_issue_link_roundtrip_witness :
    (mkEnv [] 0).entriesResp = .ok [] ∧
    (List.find? (fun e => e.endTime.isNone) ([] : List TMetricTimeEntry) = none) ∧
    ∃ t : TaskObj,
      (startTimer (some "acct") 7 "task"
        (some "https://gitlab.example.com/g/p/-/issues/42") (mkEnv [] 0)).2 =
        [RemoteCall.post { startTime := none, endTime := none
                           projectId := 7, task := t, tags := [] }] ∧
      t.name = "task" ∧
      t.externalLink = some { link := "https://gitlab.example.com/g/p/-/issues/42"
                              issueId := "GitLab Issue: #42" } ∧
      t.integration = some { url := "https://gitlab.example.com", type := "GitLab" } := by
  refine ⟨rfl, rfl, ?_⟩
  obtain ⟨⟨t, htr, hname, hsome, _⟩, hn42, hbase, htype, hfmt, _⟩ :=
    start_issue_link_roundtrip "acct" (mkEnv [] 0) [] 7 "task"
      "https://gitlab.example.com/g/p/-/issues/42" rfl rfl
  obtain ⟨hlink, hint⟩ := hsome "42" hn42
  refine ⟨t, htr, hname, ?_, ?_⟩
  · rw [hlink, htype, hfmt]
  · rw [hint, hbase, htype]

/-- C9: when the account-scoped reads fail, every command —
`listProjects`, `start`, `stop`, `delete` (both modes) — still returns a
structured `{success: false, error: "API_ERROR", message}` value (the
methods are total into `ApiResponse`: their `try/catch` never lets the
failure escape), whereas `getCurrentTimer` surfaces the same failure as
a thrown error (`Except.error`), to be caught only by the invocation
boundary. -/
theorem error_propagation_policy (acc : String) (env : Env) (e : String)
    (projectId : Int) (taskName : String) (taskUrl : Option String)
    (hE : env.entriesResp = .error e) (hP : env.projectsResp = .error e) :
    getCurrentTimer (some acc) env =
      .error ("Failed to get current timer: " ++ e) ∧
    listProjects (some acc) env =
      { success := false, error := some "API_ERROR"
        message := some ("Failed to list projects: " ++ e) } ∧
    startTimer (some acc) projectId taskName taskUrl env =
      ({ success := false, error := some "API_ERROR"
         message := some ("Failed to start timer: " ++
           ("Failed to get current timer: " ++ e)) }, []) ∧
    stopTimer (some acc) env =
      ({ success := false, error := some "API_ERROR"
         message := some ("Failed to stop timer: " ++ e) }, []) ∧
    deleteTimeEntry (some acc) .current env =
      ({ success := false, error := some "API_ERROR"
         message := some ("Failed to delete entry: " ++
           ("Failed to get current timer: " ++ e)) }, []) ∧
    deleteTimeEntry (some acc) .last env =
      ({ success := false, error := some "API_ERROR"
         message := some ("Failed to delete entry: " ++ e) }, []) := by
  refine ⟨?_, ?_, ?_, ?_, ?_, ?_⟩ <;>
    simp [getCurrentTimer, getActiveTimeEntry, getLastTimeEntry, listProjects,
      startTimer, stopTimer, deleteTimeEntry, ensureInitialized, hE, hP]

/-- C9 witness: the concrete failing environment. -/
theorem error_propagation_policy_witness :
    envReadFails.entriesResp = .error "boom" ∧
    envReadFails.projectsResp = .error "boom" ∧
    getCurrentTimer (some "acct") envReadFails =
      .error "Failed to get current timer: boom" ∧
    (listProjects (some "acct") envReadFails).success = false ∧
    (listProjects (some "acct") envReadFails).error = some "API_ERROR" ∧
    (startTimer (some "acct") 7 "task" none envReadFails).1.success = false ∧
    (stopTimer (some "acct") envReadFails).1.success = false ∧
    (deleteTimeEntry (some "acct") .current envReadFails).1.success = false ∧
    (deleteTimeEntry (some "acct") .last envReadFails).1.success = false := by
  have h := error_propagation_policy "acct" envReadFails "boom" 7 "task" none rfl rfl
  refine ⟨rfl, rfl, ?_, ?_, ?_, ?_, ?_, ?_, ?_⟩
  · rw [h.1]; rfl
  · rw [h.2.1]
  · rw [h.2.1]
  · rw [h.2.2.1]
  · rw [h.2.2.2.1]
  · rw [h.2.2.2.2.1]
  · rw [h.2.2.2.2.2]

/-- C10: for an input the URL constructor rejects (`parseUrl = none`)
that still matches `issues/(\d+)` — e.g. `"not-a-url/issues/42"` —
`start()` in IDLE attaches issue metadata anyway: the regex works on the
raw string while base URL and integration type take their GitLab
fallbacks, so the `POST`ed task carries `externalLink = {link: raw,
issueId: "GitLab Issue: #42"}` and `integration = {url:
"https://gitlab.com", type: "GitLab"}`. -/
theorem malformed_url_still_attaches (url n : String) (acc : String) (env : Env)
    (entries : List TMetricTimeEntry) (projectId : Int) (taskName : String)
    (hBad : parseUrl url = none)
    (hN : extractIssueNumber url = some n)
    (hE : env.entriesResp = .ok entries)
    (hIdle : entries.find? (fun e => e.endTime.isNone) = none) :
    extractBaseUrl url = "https://gitlab.com" ∧
    detectIntegrationType url = "GitLab" ∧
    extractIssueNumber "not-a-url/issues/42" = some "42" ∧
    parseUrl "not-a-url/issues/42" = none ∧
    (startTimer (some acc) projectId taskName (some url) env).2 =
      [RemoteCall.post
        { startTime := none, endTime := none, projectId := projectId
          task := { name := taskName
                    externalLink := some { link := url
                                           issueId := formatIssueId n "GitLab" }
                    integration := some { url := "https://gitlab.com"
                                          type := "GitLab" } }
          tags := [] }] := by
  have hne : url ≠ "" := by
    intro h
    rw [h] at hN
    exact Option.noConfusion hN
  have hcur : getCurrentTimer (some acc) env = .ok { is_running := false } := by
    simp [getCurrentTimer, getActiveTimeEntry, ensureInitialized, hE, hIdle]
  refine ⟨by simp [extractBaseUrl, hBad], by simp [detectIntegrationType, hBad],
    by decide, by decide, ?_⟩
  rcases hpost : env.postResp with _ | _ <;>
    simp [startTimer, ensureInitialized, hcur, hpost, buildTask, hne, hN,
      detectIntegrationType, extractBaseUrl, hBad]

/-- C10 witness: the literal `"not-a-url/issues/42"` on an empty day. -/
theorem malformed_url_still_attaches_witness :
    parseUrl "not-a-url/issues/42" = none ∧
    extractIssueNumber "not-a-url/issues/42" = some "42" ∧
    (mkEnv [] 0).entriesResp = .ok [] ∧
    (List.find? (fun e => e.endTime.isNone) ([] : List TMetricTimeEntry) = none) ∧
    extractBaseUrl "not-a-url/issues/42" = "https://gitlab.com" ∧
    detectIntegrationType "not-a-url/issues/42" = "GitLab" ∧
    (startTimer (some "acct") 7 "task" (some "not-a-url/issues/42") (mkEnv [] 0)).2 =
      [RemoteCall.post
        { startTime := none, endTime := none, projectId := 7
          task := { name := "task"
                    externalLink := some { link := "not-a-url/issues/42"
                                           issueId := "GitLab Issue: #42" }
                    integration := some { url := "https://gitlab.com"
                                          type := "GitLab" } }
          tags := [] }] := by
  obtain ⟨hbase, htype, _, _, htr⟩ :=
    malformed_url_still_attaches "not-a-url/issues/42" "42" "acct" (mkEnv [] 0)
      [] 7 "task" (by decide) (by decide) rfl rfl
  exact ⟨by decide, by decide, rfl, rfl, hbase, htype, by rw [htr]; decide⟩
